import Mathlib

/-!
Fett, the C extension `fett.c`.

A shallow embedding of `src/fett.c` (a Python 2 extension module wrapping
`clone(2)`, `unshare(2)`, `sethostname(2)`, `mount(2)` and `umount(2)`) for an
x86-64 Linux target (LP64, little-endian).

* Machine integers are `Nat`/`Int` with explicit reduction modulo `2 ^ 64`.
* Everything the C code calls but does not define (the allocator, the kernel
  primitives, `errno`, the interpreter's call of a Python object) is a field of
  a `Host`: a state type with one transition function per primitive.
* Every effect the C code performs is appended, in program order, to the
  `trace` of the `World`, so that "is called exactly once" and "happens
  before" are statements about that list.
-/

namespace Fett

/-! ## Machine model -/

/-- Number of addresses: pointers and `size_t` are 64 bits wide. -/
def PTR_MOD : Nat := 2 ^ 64

/-- Value of `sizeof(*child_stack)` for `void **child_stack`. -/
def SIZEOF_PTR : Nat := 8

/-- Value of `sizeof(struct clone_context)`: two object pointers. -/
def SIZEOF_CLONE_CONTEXT : Nat := 16

/-- Least value of a C `int`. -/
def INT_MIN : Int := -(2 ^ 31)

/-- Greatest value of a C `int`. -/
def INT_MAX : Int := 2 ^ 31 - 1

/-- Conversion of a C `int` to `size_t` (value modulo `2 ^ 64`). -/
def to_size_t (n : Int) : Nat := (n % (2 ^ 64 : Int)).toNat

/-- Addition of a byte offset to a `void *` (GNU C counts `void *` arithmetic in bytes). -/
def ptr_add (p k : Nat) : Nat := (p + k) % PTR_MOD

/-- Subtraction of a byte offset from a `void *`. -/
def ptr_sub (p k : Nat) : Nat := (p + (PTR_MOD - k % PTR_MOD)) % PTR_MOD

/-- Store of the C `int` `v` through an `int *` that points at a 64-bit object holding
`old` (little-endian): the low 32 bits are replaced, the high 32 bits are kept. -/
def store_int (old : Nat) (v : Int) : Nat :=
  (old % PTR_MOD) / 2 ^ 32 * 2 ^ 32 + (v % (2 ^ 32 : Int)).toNat

/-- The value the kernel reads from a 64-bit argument register for a parameter declared
`int`: the low 32 bits, as a signed number. -/
def kernel_int (x : Nat) : Int :=
  if x % 2 ^ 32 < 2 ^ 31 then ((x % 2 ^ 32 : Nat) : Int) else ((x % 2 ^ 32 : Nat) : Int) - 2 ^ 32

/-- The C string a `char *` denotes: the bytes of the buffer before the first NUL. -/
def c_str (buf : List Nat) : List Nat := buf.takeWhile (fun b => b != 0)

/-! ## Python objects and `PyArg_ParseTuple` format units -/

/-- Content of a Python object, as far as the format units used here look at it. -/
inductive PyVal
  | none
  | int (n : Int)
  | str (bs : List Nat)
  | other
  deriving DecidableEq, Repr

/-- A Python object: its identity (the key of its reference count) and its content. -/
structure PyObject where
  id : Nat
  val : PyVal
  deriving DecidableEq, Repr

/-- The exceptions `fett.c` raises. -/
inductive PyErr
  | MemoryError (msg : String)
  | RuntimeError (msg : String)
  | OSError (errno : Int)
  deriving DecidableEq, Repr

/-- What a method of the module hands back: an object, or `NULL` with an exception set. -/
inductive PyResult
  | ok (v : PyVal)
  | error (e : PyErr)
  deriving DecidableEq, Repr

/-- Format unit `i`: a Python integer that fits a C `int`. -/
def parse_i (o : PyObject) : Option Int :=
  match o.val with
  | .int n => if INT_MIN ≤ n ∧ n ≤ INT_MAX then some n else Option.none
  | _ => Option.none

/-- Format unit `k`: a Python integer, reduced to `unsigned long` without overflow check. -/
def parse_k (o : PyObject) : Option Nat :=
  match o.val with
  | .int n => some (to_size_t n)
  | _ => Option.none

/-- Format unit `s`: a string without NUL bytes; yields its NUL-terminated buffer. -/
def parse_s (o : PyObject) : Option (List Nat) :=
  match o.val with
  | .str bs => if 0 ∈ bs then Option.none else some (bs ++ [0])
  | _ => Option.none

/-- Format unit `s#`: any string; yields its NUL-terminated buffer and its length. The
source does not define `PY_SSIZE_T_CLEAN` before including `Python.h` (line 11), so the
length is a C `int`, stored through an `int *`; a length above `INT_MAX` is refused. -/
def parse_s_hash (o : PyObject) : Option (List Nat × Int) :=
  match o.val with
  | .str bs => if (bs.length : Int) ≤ INT_MAX then some (bs ++ [0], (bs.length : Int))
               else Option.none
  | _ => Option.none

/-! ## Host interface, effects and state -/

/-- Contents of `struct clone_context`. -/
structure clone_context where
  func : PyObject
  args : PyObject
  deriving DecidableEq, Repr

/-- A call of a kernel primitive with its arguments as the kernel reads them: a string
argument is the C string at the pointer, `sethostname` gets the buffer at the pointer and
its length as the `int` the system call declares. -/
inductive Syscall
  | clone (child_stack : Nat) (flags : Int) (arg : Nat)
  | unshare (flags : Int)
  | sethostname (name : List Nat) (len : Int)
  | mount (source target filesystemtype : List Nat) (mountflags : Nat) (data : List Nat)
  | umount (target : List Nat)
  deriving DecidableEq, Repr

/-- One effect of the C code. -/
inductive Event
  | malloc (size ret : Nat)
  | free (p : Nat)
  | incref (o : Nat)
  | decref (o : Nat)
  | call (func args : PyObject)
  | sys (c : Syscall) (ret : Int)
  deriving DecidableEq, Repr

/-- Everything `fett.c` calls and does not define: the allocator, the kernel primitives
(their return value), `errno`, and the interpreter's call of a Python object: its result
(`none` for `NULL`) and, in `call_counts`, the reference counts it leaves behind given
those it found, the new reference to the result and whatever the callee did included. -/
structure Host (σ : Type) where
  malloc : σ → Nat → σ × Nat
  syscall : σ → Syscall → σ × Int
  errno : σ → Int
  call_object : σ → PyObject → PyObject → σ × Option PyVal
  call_counts : σ → PyObject → PyObject → (Nat → Int) → (Nat → Int)

/-- Program state: the host, the reference counts, the context blocks, the effects so far. -/
structure World (σ : Type) where
  host : σ
  refcnt : Nat → Int
  ctxmem : Nat → Option clone_context
  trace : List Event

/-- The kernel calls of a trace, in order. -/
def sysCalls : List Event → List Syscall
  | [] => []
  | .sys c _ :: es => c :: sysCalls es
  | _ :: es => sysCalls es

/-- The Python calls of a trace, in order. -/
def pyCalls : List Event → List (PyObject × PyObject)
  | [] => []
  | .call f a :: es => (f, a) :: pyCalls es
  | _ :: es => pyCalls es

variable {σ : Type}

/-- A call of `malloc`. -/
def do_malloc (H : Host σ) (w : World σ) (size : Nat) : World σ × Nat :=
  let r := H.malloc w.host size
  ({ w with host := r.1, trace := w.trace ++ [Event.malloc size r.2] }, r.2)

/-- A call of `free` on a context block. -/
def do_free (w : World σ) (p : Nat) : World σ :=
  { w with ctxmem := Function.update w.ctxmem p Option.none, trace := w.trace ++ [Event.free p] }

/-- A call of a kernel primitive. -/
def do_syscall (H : Host σ) (w : World σ) (c : Syscall) : World σ × Int :=
  let r := H.syscall w.host c
  ({ w with host := r.1, trace := w.trace ++ [Event.sys c r.2] }, r.2)

/-- The macro `Py_INCREF`: the count of the object goes up by one. -/
def Py_INCREF (w : World σ) (o : PyObject) : World σ :=
  { w with refcnt := Function.update w.refcnt o.id (w.refcnt o.id + 1),
           trace := w.trace ++ [Event.incref o.id] }

/-- The macro `Py_DECREF`: the count of the object goes down by one. -/
def Py_DECREF (w : World σ) (o : PyObject) : World σ :=
  { w with refcnt := Function.update w.refcnt o.id (w.refcnt o.id - 1),
           trace := w.trace ++ [Event.decref o.id] }

/-- A call of `PyObject_CallObject(func, args)`: the callee runs, and the result comes
back as a new reference. -/
def PyObject_CallObject (H : Host σ) (w : World σ) (func args : PyObject) :
    World σ × Option PyVal :=
  let r := H.call_object w.host func args
  ({ w with host := r.1, refcnt := H.call_counts w.host func args w.refcnt,
            trace := w.trace ++ [Event.call func args] }, r.2)

/-- The exception `PyErr_SetFromErrno(PyExc_OSError)` sets. -/
def PyErr_SetFromErrno (H : Host σ) (w : World σ) : PyResult :=
  PyResult.error (PyErr.OSError (H.errno w.host))

/-! ## The functions of `fett.c` -/

/-- Lines 23-33: the routine the spawned task runs, on the memory of that task; the result
of calling `func` is dropped without a `Py_DECREF`. `none` when `ctx` is not a live
context. -/
def fett_clone_callback (H : Host σ) (w : World σ) (ctx : Nat) : Option (World σ × Int) :=
  match w.ctxmem ctx with
  | Option.none => Option.none
  | some context =>
    let w1 := (PyObject_CallObject H w context.func context.args).1
    let w2 := Py_DECREF w1 context.func
    let w3 := Py_DECREF w2 context.args
    let w4 := do_free w3 ctx
    some (w4, 0)

/-- Format `OOii:clone`. -/
def parse_clone (args : List PyObject) : Option (PyObject × PyObject × Int × Int) :=
  match args with
  | [func, a, fl, sz] =>
    match parse_i fl, parse_i sz with
    | some flags, some child_stack_size => some (func, a, flags, child_stack_size)
    | _, _ => Option.none
  | _ => Option.none

/-- Line 54: `malloc(child_stack_size) + (child_stack_size / sizeof(*child_stack)) - 1`,
for `base` the address `malloc` returned. -/
def child_stack_ptr (base : Nat) (child_stack_size : Int) : Nat :=
  ptr_sub (ptr_add base (to_size_t child_stack_size / SIZEOF_PTR)) 1

/-- Lines 36-70. The stores into `ctx->func` and `ctx->args` are made when the whole tuple
parses; on the error paths the context block is left allocated and is never read. -/
def fett_clone (H : Host σ) (w : World σ) (args : List PyObject) : World σ × PyResult :=
  let m := do_malloc H w SIZEOF_CLONE_CONTEXT
  let ctx := m.2
  if ctx = 0 then
    (m.1, PyResult.error (PyErr.MemoryError "Unable to allocate memory for clone context"))
  else
    match parse_clone args with
    | Option.none =>
      (m.1, PyResult.error (PyErr.RuntimeError "Unable to parse fett.clone() arguments"))
    | some (func, a, flags, child_stack_size) =>
      let w1 : World σ :=
        { m.1 with ctxmem := Function.update m.1.ctxmem ctx (some (clone_context.mk func a)) }
      let s := do_malloc H w1 (to_size_t child_stack_size)
      let child_stack := child_stack_ptr s.2 child_stack_size
      if child_stack = 0 then
        (s.1, PyResult.error (PyErr.MemoryError "Unable to allocate memory for child stack"))
      else
        let w2 := Py_INCREF s.1 func
        let w3 := Py_INCREF w2 a
        let c := do_syscall H w3 (Syscall.clone child_stack flags ctx)
        let pid := c.2
        if pid = -1 then
          (c.1, PyErr_SetFromErrno H c.1)
        else
          (c.1, PyResult.ok (PyVal.int pid))

/-- Lines 73-86. -/
def fett_unshare (H : Host σ) (w : World σ) (args : List PyObject) : World σ × PyResult :=
  match args with
  | [fl] =>
    match parse_i fl with
    | some flags =>
      let c := do_syscall H w (Syscall.unshare flags)
      if c.2 ≠ 0 then (c.1, PyErr_SetFromErrno H c.1) else (c.1, PyResult.ok PyVal.none)
    | Option.none =>
      (w, PyResult.error (PyErr.RuntimeError "Unable to parse fett.unshare() arguments"))
  | _ => (w, PyResult.error (PyErr.RuntimeError "Unable to parse fett.unshare() arguments"))

/-- Lines 89-103. `len0` is the indeterminate value the uninitialised `Py_ssize_t len` of
line 91 holds on entry; `PyArg_ParseTuple` stores the length into it as an `int`, and the
system call reads the `size_t` it is passed as an `int`. -/
def fett_sethostname (H : Host σ) (w : World σ) (len0 : Nat) (args : List PyObject) :
    World σ × PyResult :=
  match args with
  | [nm] =>
    match parse_s_hash nm with
    | some (hostname, n) =>
      let len := store_int len0 n
      let c := do_syscall H w (Syscall.sethostname hostname (kernel_int len))
      if c.2 ≠ 0 then (c.1, PyErr_SetFromErrno H c.1) else (c.1, PyResult.ok PyVal.none)
    | Option.none =>
      (w, PyResult.error (PyErr.RuntimeError "Unable to parse fett.sethostname() arguments"))
  | _ => (w, PyResult.error (PyErr.RuntimeError "Unable to parse fett.sethostname() arguments"))

/-- Lines 106-124. -/
def fett_mount (H : Host σ) (w : World σ) (args : List PyObject) : World σ × PyResult :=
  match args with
  | [src, tgt, fs, fl, dt] =>
    match parse_s src, parse_s tgt, parse_s fs, parse_k fl, parse_s dt with
    | some source, some target, some filesystemtype, some mountflags, some data =>
      let c := do_syscall H w
        (Syscall.mount (c_str source) (c_str target) (c_str filesystemtype) mountflags (c_str data))
      if c.2 ≠ 0 then (c.1, PyErr_SetFromErrno H c.1) else (c.1, PyResult.ok PyVal.none)
    | _, _, _, _, _ =>
      (w, PyResult.error (PyErr.RuntimeError "Unable to parse fett.mount() arguments"))
  | _ => (w, PyResult.error (PyErr.RuntimeError "Unable to parse fett.mount() arguments"))

/-- Lines 127-141. -/
def fett_umount (H : Host σ) (w : World σ) (args : List PyObject) : World σ × PyResult :=
  match args with
  | [tgt] =>
    match parse_s tgt with
    | some target =>
      let c := do_syscall H w (Syscall.umount (c_str target))
      if c.2 ≠ 0 then (c.1, PyErr_SetFromErrno H c.1) else (c.1, PyResult.ok PyVal.none)
    | Option.none =>
      (w, PyResult.error (PyErr.RuntimeError "Unable to parse fett.umount() arguments"))
  | _ => (w, PyResult.error (PyErr.RuntimeError "Unable to parse fett.umount() arguments"))

/-! ## The memory of the spawned task -/

/-- Value of `CLONE_VM` on Linux. -/
def CLONE_VM : Nat := 0x100

/-- Whether the flags handed to clone hold `CLONE_VM` (bit 8 of the C `int`). -/
def shares_memory (flags : Int) : Bool :=
  ((flags % (2 ^ 32 : Int)).toNat / CLONE_VM) % 2 == 1

/-- Modelled from the spec: the kernel side of `clone(2)`, which is not part of the
repository. The caller's reference counts once the spawned task has run to its end, for
`caller` the counts when clone returned and `task` the counts the task ended with: with
`CLONE_VM` the task ran in the caller's memory, without it the task ran in a copy of that
memory and the caller's counts are as clone left them. -/
def refcnt_after_task (flags : Int) (caller task : Nat → Int) : Nat → Int :=
  if shares_memory flags then task else caller

/-! ## Module initialisation -/

/-- The extension module: its method table and its integer constants, in insertion order. -/
structure Module where
  name : String
  methods : List String
  consts : List (String × Int)
  deriving DecidableEq, Repr

/-- The names of the method table `FettMethods` (lines 144-151). -/
def FettMethods : List String := ["clone", "unshare", "sethostname", "mount", "umount"]

/-- A call of `Py_InitModule(name, methods)`: a module with these methods and no constant. -/
def Py_InitModule (name : String) (methods : List String) : Module :=
  { name := name, methods := methods, consts := [] }

/-- Adds `value` under `name`; the header's value of the macro `name` is looked up in `hdr`. -/
def PyModule_AddIntConstant (hdr : String → Int) (m : Module) (name : String) : Module :=
  { m with consts := m.consts ++ [(name, hdr name)] }

/-- The macro names passed to `PyModule_AddIntConstant`, lines 160-198, in order. -/
def exported_names : List String :=
  [ "CLONE_CHILD_CLEARTID", "CLONE_CHILD_SETTID", "CLONE_FILES", "CLONE_FS", "CLONE_IO",
    "CLONE_NEWIPC", "CLONE_NEWNET", "CLONE_NEWNS", "CLONE_NEWPID", "CLONE_NEWUTS",
    "CLONE_PARENT", "CLONE_PARENT_SETTID", "CLONE_PTRACE", "CLONE_SETTLS", "CLONE_SIGHAND",
    "CLONE_SYSVSEM", "CLONE_THREAD", "CLONE_UNTRACED", "CLONE_VFORK", "CLONE_VM",
    "SIGCHLD",
    "MS_BIND", "MS_DIRSYNC", "MS_MANDLOCK", "MS_MOVE", "MS_NOATIME", "MS_NODEV",
    "MS_NODIRATIME", "MS_NOEXEC", "MS_NOSUID", "MS_RDONLY", "MS_RELATIME", "MS_REMOUNT",
    "MS_SILENT", "MS_STRICTATIME", "MS_SYNCHRONOUS" ]

/-- Lines 154-199, for `hdr` the values the host's headers give the macros. -/
def initfett (hdr : String → Int) : Module :=
  exported_names.foldl (PyModule_AddIntConstant hdr) (Py_InitModule "fett" FettMethods)

/-- The namespace kinds the specification lists. -/
inductive NamespaceKind
  | mount
  | network
  | pid
  | ipc
  | uts
  | user
  deriving DecidableEq, Repr

/-- The macro of `<sched.h>` that requests a new namespace of the given kind. -/
def NamespaceKind.flag : NamespaceKind → String
  | .mount => "CLONE_NEWNS"
  | .network => "CLONE_NEWNET"
  | .pid => "CLONE_NEWPID"
  | .ipc => "CLONE_NEWIPC"
  | .uts => "CLONE_NEWUTS"
  | .user => "CLONE_NEWUSER"

/-- A sample header table: the values of Linux on x86-64 for the macros used here
and for `CLONE_NEWUSER`; any other name is 0. -/
def linux_headers (name : String) : Int :=
  ([ ("CLONE_VM", 0x100), ("CLONE_FS", 0x200), ("CLONE_FILES", 0x400),
     ("CLONE_SIGHAND", 0x800), ("CLONE_PTRACE", 0x2000), ("CLONE_VFORK", 0x4000),
     ("CLONE_PARENT", 0x8000), ("CLONE_THREAD", 0x10000), ("CLONE_NEWNS", 0x20000),
     ("CLONE_SYSVSEM", 0x40000), ("CLONE_SETTLS", 0x80000),
     ("CLONE_PARENT_SETTID", 0x100000), ("CLONE_CHILD_CLEARTID", 0x200000),
     ("CLONE_UNTRACED", 0x800000), ("CLONE_CHILD_SETTID", 0x1000000),
     ("CLONE_NEWUTS", 0x4000000), ("CLONE_NEWIPC", 0x8000000),
     ("CLONE_NEWUSER", 0x10000000), ("CLONE_NEWPID", 0x20000000),
     ("CLONE_NEWNET", 0x40000000), ("CLONE_IO", 0x80000000),
     ("SIGCHLD", 17),
     ("MS_RDONLY", 1), ("MS_NOSUID", 2), ("MS_NODEV", 4), ("MS_NOEXEC", 8),
     ("MS_SYNCHRONOUS", 16), ("MS_REMOUNT", 32), ("MS_MANDLOCK", 64), ("MS_DIRSYNC", 128),
     ("MS_NOATIME", 1024), ("MS_NODIRATIME", 2048), ("MS_BIND", 4096), ("MS_MOVE", 8192),
     ("MS_SILENT", 32768), ("MS_RELATIME", 0x200000), ("MS_STRICTATIME", 0x1000000)
   ] : List (String × Int)).lookup name |>.getD 0

/-! ## Sample hosts -/

/-- Value of `EINVAL` on Linux. -/
def EINVAL : Int := 22

/-- Value of `ENOSYS` on Linux. -/
def ENOSYS : Int := 38

/-- State of the scripted host: the answers it will give, in order. -/
structure Script where
  mallocs : List Nat
  sysrets : List (Int × Int)
  errno : Int
  entry_result : Option PyVal
  deriving DecidableEq, Repr

/-- A host that answers from a script: `malloc` returns the next address of `mallocs`
(`NULL` when none is left), a kernel call returns the next pair of `sysrets` as its
return value and the value of `errno` after it (-1 and `ENOSYS` when none is left), and
calling a Python object gives `entry_result`; a result is a new reference to the object of
identity 0, and the call changes no other count. -/
def scripted : Host Script where
  malloc s _ :=
    match s.mallocs with
    | [] => (s, 0)
    | a :: rest => ({ s with mallocs := rest }, a)
  syscall s _ :=
    match s.sysrets with
    | [] => ({ s with errno := ENOSYS }, -1)
    | (r, e) :: rest => ({ s with sysrets := rest, errno := e }, r)
  errno s := s.errno
  call_object s _ _ := (s, s.entry_result)
  call_counts s _ _ r :=
    match s.entry_result with
    | Option.none => r
    | some _ => Function.update r 0 (r 0 + 1)

/-- The world a method starts in on the scripted host: every count 1, no context, no effect. -/
def scripted_world (s : Script) : World Script :=
  { host := s, refcnt := fun _ => 1, ctxmem := fun _ => Option.none, trace := [] }

/-- Largest hostname length the kernel accepts (`__NEW_UTS_LEN`). -/
def HOST_NAME_MAX : Nat := 64

/-- State of the hostname model: the hostname of the UTS namespace, and `errno`. -/
structure Uts where
  hostname : List Nat
  errno : Int
  deriving DecidableEq, Repr

/-- Modelled from the spec: the kernel side of `sethostname(2)`, which is not part of the
repository. `sethostname(buf, len)` stores the first `len` bytes of `buf` when `len` is
within the permitted maximum and fails with `EINVAL` otherwise (a negative `len`
included); the other primitives are not provided by this model. -/
def uts_host : Host Uts where
  malloc s _ := (s, 0)
  syscall s c :=
    match c with
    | .sethostname buf len =>
      if 0 ≤ len ∧ len ≤ (HOST_NAME_MAX : Int) then ({ s with hostname := buf.take len.toNat }, 0)
      else ({ s with errno := EINVAL }, -1)
    | _ => ({ s with errno := ENOSYS }, -1)
  errno s := s.errno
  call_object s _ _ := (s, Option.none)
  call_counts _ _ _ r := r

/-- Modelled from the spec: a read of the current hostname. -/
def gethostname (s : Uts) : List Nat := s.hostname

/-! ## Auxiliary facts -/

theorem to_size_t_of_nonneg (n : Int) (h0 : 0 ≤ n) (h1 : n ≤ INT_MAX) :
    to_size_t n = n.toNat := by
  unfold to_size_t
  unfold INT_MAX at h1
  rw [Int.emod_eq_of_lt h0 (by omega)]

/-- Line 54 without wrap-around: for a live region and a positive size the pointer is
`base + size / 8 - 1`. -/
theorem child_stack_ptr_eq (base : Nat) (size : Int) (h0 : 0 ≤ size) (h1 : size ≤ INT_MAX)
    (hb : 0 < base + size.toNat / 8) (hfit : base + size.toNat ≤ PTR_MOD) :
    child_stack_ptr base size = base + size.toNat / 8 - 1 := by
  unfold child_stack_ptr ptr_sub ptr_add SIZEOF_PTR
  rw [to_size_t_of_nonneg size h0 h1]
  unfold PTR_MOD at *
  omega

theorem sysCalls_append (l l2 : List Event) : sysCalls (l ++ l2) = sysCalls l ++ sysCalls l2 := by
  induction l with
  | nil => rfl
  | cons e es ih => cases e <;> simp [sysCalls, ih]

theorem pyCalls_append (l l2 : List Event) : pyCalls (l ++ l2) = pyCalls l ++ pyCalls l2 := by
  induction l with
  | nil => rfl
  | cons e es ih => cases e <;> simp [pyCalls, ih]

theorem c_str_terminated (bs : List Nat) (h : 0 ∉ bs) : c_str (bs ++ [0]) = bs := by
  induction bs with
  | nil => simp [c_str]
  | cons b bs ih =>
    have hb : b ≠ 0 := fun e => h (by simp [e])
    have ht : 0 ∉ bs := fun m => h (List.mem_cons_of_mem _ m)
    have := ih ht
    simp only [c_str] at this ⊢
    have hb2 : (b != 0) = true := by simp [hb]
    simp [List.takeWhile, hb2, this]

theorem parse_i_int (o : PyObject) (n : Int) (hv : o.val = PyVal.int n)
    (hr : INT_MIN ≤ n ∧ n ≤ INT_MAX) : parse_i o = some n := by
  simp [parse_i, hv, hr]

theorem parse_s_str (o : PyObject) (bs : List Nat) (hv : o.val = PyVal.str bs) (h0 : 0 ∉ bs) :
    parse_s o = some (bs ++ [0]) := by
  simp [parse_s, hv, h0]

/-- What `fett_clone` does once the arguments parse and both null checks pass. -/
theorem fett_clone_spawned (H : Host σ) (w : World σ) (f a fo so : PyObject) (flags size : Int)
    (hfo : parse_i fo = some flags) (hso : parse_i so = some size)
    (hctx : (H.malloc w.host SIZEOF_CLONE_CONTEXT).2 ≠ 0)
    (hstk : child_stack_ptr
      (H.malloc (H.malloc w.host SIZEOF_CLONE_CONTEXT).1 (to_size_t size)).2 size ≠ 0) :
    fett_clone H w [f, a, fo, so] =
      (let m := H.malloc w.host SIZEOF_CLONE_CONTEXT
       let s := H.malloc m.1 (to_size_t size)
       let c := H.syscall s.1 (Syscall.clone (child_stack_ptr s.2 size) flags m.2)
       ({ host := c.1,
          refcnt := Function.update (Function.update w.refcnt f.id (w.refcnt f.id + 1)) a.id
            (Function.update w.refcnt f.id (w.refcnt f.id + 1) a.id + 1),
          ctxmem := Function.update w.ctxmem m.2 (some (clone_context.mk f a)),
          trace := w.trace ++ [Event.malloc SIZEOF_CLONE_CONTEXT m.2,
            Event.malloc (to_size_t size) s.2, Event.incref f.id, Event.incref a.id,
            Event.sys (Syscall.clone (child_stack_ptr s.2 size) flags m.2) c.2] },
        if c.2 = -1 then PyResult.error (PyErr.OSError (H.errno c.1))
        else PyResult.ok (PyVal.int c.2))) := by
  simp only [fett_clone, parse_clone, hfo, hso, do_malloc, do_syscall, Py_INCREF,
    PyErr_SetFromErrno, if_neg hctx, if_neg hstk]
  split <;> simp

/-- A call of `fett_clone` that returns an object got its arguments parsed and passed both
null checks. -/
theorem fett_clone_ok_inv (H : Host σ) (w : World σ) (f a fo so : PyObject) (v : PyVal)
    (hok : (fett_clone H w [f, a, fo, so]).2 = PyResult.ok v) :
    ∃ flags size, parse_i fo = some flags ∧ parse_i so = some size
      ∧ (H.malloc w.host SIZEOF_CLONE_CONTEXT).2 ≠ 0
      ∧ child_stack_ptr
          (H.malloc (H.malloc w.host SIZEOF_CLONE_CONTEXT).1 (to_size_t size)).2 size ≠ 0 := by
  unfold fett_clone at hok
  simp only [do_malloc, parse_clone] at hok
  by_cases hctx : (H.malloc w.host SIZEOF_CLONE_CONTEXT).2 = 0
  · simp [hctx] at hok
  · simp only [if_neg hctx] at hok
    cases hfo : parse_i fo with
    | none => simp [hfo] at hok
    | some flags =>
      cases hso : parse_i so with
      | none => simp [hfo, hso] at hok
      | some size =>
        refine ⟨flags, size, rfl, rfl, hctx, ?_⟩
        intro hstk
        simp [hfo, hso, hstk] at hok

/-! ## The stack pointer of `fett_clone` (line 54) -/

/-- C1 (the code departs from the claim): for `fett.clone(f, a, SIGCHLD, 1048576)` with the
stack region allocated at 65536, the stack pointer handed to the kernel clone primitive is
`65536 + 1048576 / 8 - 1 = 196607`, which is 917505 bytes below the top `65536 + 1048576`
of the region and not within 16 bytes of it. -/
theorem clone_stack_pointer_not_top :
    sysCalls (fett_clone scripted
        (scripted_world ⟨[4096, 65536], [(1234, 0)], 0, Option.none⟩)
        [⟨1, PyVal.other⟩, ⟨2, PyVal.other⟩, ⟨3, PyVal.int 17⟩, ⟨4, PyVal.int 1048576⟩]).1.trace
      = [Syscall.clone 196607 17 4096]
    ∧ child_stack_ptr 65536 1048576 = 196607
    ∧ ¬ (65536 + 1048576 - 16 ≤ child_stack_ptr 65536 1048576) := by
  decide

/-- C10, as stated, fails: a one-byte region at 4096 is a successful allocation, and the
pointer computed for it is 4095, below the base of the region. -/
theorem stack_pointer_below_base :
    (4096 ≠ 0 ∧ 4096 % 16 = 0 ∧ 4096 + to_size_t 1 ≤ PTR_MOD)
    ∧ child_stack_ptr 4096 1 = 4095
    ∧ ¬ (4096 ≤ child_stack_ptr 4096 1 ∧ child_stack_ptr 4096 1 ≤ 4096 + 1) := by
  decide

/-- C10 (amended): for every `stack_size` of at least 8 bytes (one pointer) and every base
address of a successful allocation of `stack_size` bytes, the stack pointer computed on
line 54 lies inside the allocated region: `base ≤ pointer ≤ base + stack_size`. -/
theorem stack_pointer_in_region (base : Nat) (stack_size : Int)
    (hsize : 8 ≤ stack_size ∧ stack_size ≤ INT_MAX)
    (hbase : base ≠ 0 ∧ base % 16 = 0 ∧ base + to_size_t stack_size ≤ PTR_MOD) :
    base ≤ child_stack_ptr base stack_size
      ∧ child_stack_ptr base stack_size ≤ base + stack_size.toNat := by
  obtain ⟨h8, hmax⟩ := hsize
  obtain ⟨_, _, hfit⟩ := hbase
  rw [to_size_t_of_nonneg stack_size (by omega) hmax] at hfit
  rw [child_stack_ptr_eq base stack_size (by omega) hmax (by omega) hfit]
  omega

theorem stack_pointer_in_region_witness :
    (8 ≤ (1048576 : Int) ∧ (1048576 : Int) ≤ INT_MAX)
    ∧ (65536 ≠ 0 ∧ 65536 % 16 = 0 ∧ 65536 + to_size_t 1048576 ≤ PTR_MOD)
    ∧ 65536 ≤ child_stack_ptr 65536 1048576
    ∧ child_stack_ptr 65536 1048576 ≤ 65536 + (1048576 : Int).toNat :=
  ⟨by decide, by decide, stack_pointer_in_region 65536 1048576 (by decide) (by decide)⟩

/-! ## `fett_clone` -/

/-- C3 (the code departs from the claim): for `fett.clone(f, a, SIGCHLD, 1048576)` where
the allocation of the stack region fails (`malloc` returns `NULL`), the pointer tested on
line 55 is `0 + 1048576 / 8 - 1 = 131071`, not `NULL`; the kernel clone primitive is
invoked with that stack pointer and the call returns the process id instead of failing
with `MemoryError`. -/
theorem failed_stack_allocation_reaches_clone :
    (scripted.malloc ⟨[], [(1234, 0)], 0, Option.none⟩ (to_size_t 1048576)).2 = 0
    ∧ sysCalls (fett_clone scripted
        (scripted_world ⟨[4096], [(1234, 0)], 0, Option.none⟩)
        [⟨1, PyVal.other⟩, ⟨2, PyVal.other⟩, ⟨3, PyVal.int 17⟩, ⟨4, PyVal.int 1048576⟩]).1.trace
      = [Syscall.clone 131071 17 4096]
    ∧ (fett_clone scripted
        (scripted_world ⟨[4096], [(1234, 0)], 0, Option.none⟩)
        [⟨1, PyVal.other⟩, ⟨2, PyVal.other⟩, ⟨3, PyVal.int 17⟩, ⟨4, PyVal.int 1048576⟩]).2
      = PyResult.ok (PyVal.int 1234) := by
  decide

/-- C2, as stated, fails: `fett.clone(f, a, SIGCHLD, 0)` is not rejected. With the context
at 4096 and `malloc(0)` returning 8192, the kernel clone primitive is invoked (with stack
pointer 8191) and the process id 1234 it returns is handed to the caller. -/
theorem zero_stack_size_reaches_clone :
    sysCalls (fett_clone scripted
        (scripted_world ⟨[4096, 8192], [(1234, 0)], 0, Option.none⟩)
        [⟨1, PyVal.other⟩, ⟨2, PyVal.other⟩, ⟨3, PyVal.int 17⟩, ⟨4, PyVal.int 0⟩]).1.trace
      = [Syscall.clone 8191 17 4096]
    ∧ (fett_clone scripted
        (scripted_world ⟨[4096, 8192], [(1234, 0)], 0, Option.none⟩)
        [⟨1, PyVal.other⟩, ⟨2, PyVal.other⟩, ⟨3, PyVal.int 17⟩, ⟨4, PyVal.int 0⟩]).2
      = PyResult.ok (PyVal.int 1234) := by
  decide

/-- C2 (amended): for every entry, args and flags, `fett_clone` called with `stack_size = 0`
is not rejected as an argument error: when its two allocations succeed, the kernel clone
primitive is invoked exactly once, with the caller's flags, and the result is the process
id the kernel returned, or `OSError` carrying the kernel's error code when it returned
-1. -/
theorem zero_stack_size_not_checked (H : Host σ) (w : World σ) (f a fo so : PyObject)
    (flags : Int) (h1 h2 : σ) (ctx base : Nat)
    (hfo : fo.val = PyVal.int flags) (hso : so.val = PyVal.int 0)
    (hflags : INT_MIN ≤ flags ∧ flags ≤ INT_MAX)
    (hm1 : H.malloc w.host SIZEOF_CLONE_CONTEXT = (h1, ctx))
    (hctx : ctx ≠ 0 ∧ ctx % 16 = 0 ∧ ctx + SIZEOF_CLONE_CONTEXT ≤ PTR_MOD)
    (hm2 : H.malloc h1 (to_size_t 0) = (h2, base))
    (hbase : base ≠ 0 ∧ base % 16 = 0 ∧ base + to_size_t 0 ≤ PTR_MOD) :
    ∃ child_stack,
      sysCalls (fett_clone H w [f, a, fo, so]).1.trace
          = sysCalls w.trace ++ [Syscall.clone child_stack flags ctx]
        ∧ (fett_clone H w [f, a, fo, so]).2
          = (if (H.syscall h2 (Syscall.clone child_stack flags ctx)).2 = -1 then
               PyResult.error (PyErr.OSError
                 (H.errno (H.syscall h2 (Syscall.clone child_stack flags ctx)).1))
             else PyResult.ok (PyVal.int (H.syscall h2 (Syscall.clone child_stack flags ctx)).2))
    := by
  obtain ⟨hb0, hb16, _⟩ := hbase
  have hne : child_stack_ptr base 0 ≠ 0 := by
    simp only [child_stack_ptr, ptr_add, ptr_sub, to_size_t, SIZEOF_PTR, PTR_MOD]
    simp only [Int.zero_emod, Int.toNat_zero, Nat.zero_div, Nat.add_zero]
    omega
  have hrun := fett_clone_spawned H w f a fo so flags 0 (parse_i_int fo flags hfo hflags)
    (parse_i_int so 0 hso (by decide)) (by rw [hm1]; exact hctx.1)
    (by rw [hm1]; simp only []; rw [hm2]; exact hne)
  refine ⟨child_stack_ptr base 0, ?_⟩
  rw [hrun]
  simp only [hm1, hm2]
  simp [sysCalls_append, sysCalls]

theorem zero_stack_size_not_checked_witness :
    ∃ child_stack,
      sysCalls (fett_clone scripted
          (scripted_world ⟨[4096, 8192], [(1234, 0)], 0, Option.none⟩)
          [⟨1, PyVal.other⟩, ⟨2, PyVal.other⟩, ⟨3, PyVal.int 17⟩, ⟨4, PyVal.int 0⟩]).1.trace
        = sysCalls (scripted_world ⟨[4096, 8192], [(1234, 0)], 0, Option.none⟩).trace
            ++ [Syscall.clone child_stack 17 4096]
      ∧ (fett_clone scripted
          (scripted_world ⟨[4096, 8192], [(1234, 0)], 0, Option.none⟩)
          [⟨1, PyVal.other⟩, ⟨2, PyVal.other⟩, ⟨3, PyVal.int 17⟩, ⟨4, PyVal.int 0⟩]).2
        = PyResult.ok (PyVal.int 1234) :=
  (zero_stack_size_not_checked scripted
    (scripted_world ⟨[4096, 8192], [(1234, 0)], 0, Option.none⟩)
    ⟨1, PyVal.other⟩ ⟨2, PyVal.other⟩ ⟨3, PyVal.int 17⟩ ⟨4, PyVal.int 0⟩ 17
    ⟨[8192], [(1234, 0)], 0, Option.none⟩ ⟨[], [(1234, 0)], 0, Option.none⟩
    4096 8192 rfl rfl (by decide) rfl (by decide) rfl (by decide)).imp
    (fun _ h => ⟨h.1, h.2⟩)

/-- C4: for every well-formed call of `fett_clone` (flags a C `int`, `stack_size` a positive
C `int`) whose two allocations succeed, the kernel clone primitive is invoked exactly once,
with the caller's flags unmodified; the result is `OSError` carrying the kernel's error code
if and only if the primitive returned -1, and otherwise it is exactly the process id the
kernel returned. -/
theorem fett_clone_returns_kernel_pid (H : Host σ) (w : World σ) (f a fo so : PyObject)
    (flags stack_size : Int) (h1 h2 h3 : σ) (ctx base : Nat) (ret : Int)
    (hfo : fo.val = PyVal.int flags) (hso : so.val = PyVal.int stack_size)
    (hflags : INT_MIN ≤ flags ∧ flags ≤ INT_MAX)
    (hsize : 0 < stack_size ∧ stack_size ≤ INT_MAX)
    (hm1 : H.malloc w.host SIZEOF_CLONE_CONTEXT = (h1, ctx))
    (hctx : ctx ≠ 0 ∧ ctx % 16 = 0 ∧ ctx + SIZEOF_CLONE_CONTEXT ≤ PTR_MOD)
    (hm2 : H.malloc h1 (to_size_t stack_size) = (h2, base))
    (hbase : base ≠ 0 ∧ base % 16 = 0 ∧ base + to_size_t stack_size ≤ PTR_MOD)
    (hk : H.syscall h2 (Syscall.clone (child_stack_ptr base stack_size) flags ctx) = (h3, ret)) :
    sysCalls (fett_clone H w [f, a, fo, so]).1.trace
        = sysCalls w.trace ++ [Syscall.clone (child_stack_ptr base stack_size) flags ctx]
      ∧ ((fett_clone H w [f, a, fo, so]).2 = PyResult.error (PyErr.OSError (H.errno h3))
          ↔ ret = -1)
      ∧ (ret ≠ -1 → (fett_clone H w [f, a, fo, so]).2 = PyResult.ok (PyVal.int ret)) := by
  obtain ⟨hpos, hmax⟩ := hsize
  obtain ⟨hb0, hb16, hfit⟩ := hbase
  have hne : child_stack_ptr base stack_size ≠ 0 := by
    rw [to_size_t_of_nonneg stack_size (by omega) hmax] at hfit
    rw [child_stack_ptr_eq base stack_size (by omega) hmax (by omega) hfit]
    omega
  have hrun := fett_clone_spawned H w f a fo so flags stack_size
    (parse_i_int fo flags hfo hflags)
    (parse_i_int so stack_size hso ⟨by unfold INT_MIN; omega, hmax⟩)
    (by rw [hm1]; exact hctx.1)
    (by rw [hm1]; simp only []; rw [hm2]; exact hne)
  rw [hrun]
  simp only [hm1, hm2, hk]
  refine ⟨by simp [sysCalls_append, sysCalls], ?_, ?_⟩
  · by_cases hr : ret = -1 <;> simp [hr]
  · intro hr
    simp [hr]

theorem fett_clone_returns_kernel_pid_witness :
    sysCalls (fett_clone scripted
        (scripted_world ⟨[4096, 65536], [(1234, 0)], 0, Option.none⟩)
        [⟨1, PyVal.other⟩, ⟨2, PyVal.other⟩, ⟨3, PyVal.int 17⟩, ⟨4, PyVal.int 1048576⟩]).1.trace
      = sysCalls (scripted_world ⟨[4096, 65536], [(1234, 0)], 0, Option.none⟩).trace
          ++ [Syscall.clone (child_stack_ptr 65536 1048576) 17 4096]
    ∧ ((fett_clone scripted
        (scripted_world ⟨[4096, 65536], [(1234, 0)], 0, Option.none⟩)
        [⟨1, PyVal.other⟩, ⟨2, PyVal.other⟩, ⟨3, PyVal.int 17⟩, ⟨4, PyVal.int 1048576⟩]).2
        = PyResult.error (PyErr.OSError (scripted.errno ⟨[], [], 0, Option.none⟩))
          ↔ (1234 : Int) = -1)
    ∧ ((1234 : Int) ≠ -1 → (fett_clone scripted
        (scripted_world ⟨[4096, 65536], [(1234, 0)], 0, Option.none⟩)
        [⟨1, PyVal.other⟩, ⟨2, PyVal.other⟩, ⟨3, PyVal.int 17⟩, ⟨4, PyVal.int 1048576⟩]).2
        = PyResult.ok (PyVal.int 1234)) :=
  fett_clone_returns_kernel_pid scripted
    (scripted_world ⟨[4096, 65536], [(1234, 0)], 0, Option.none⟩)
    ⟨1, PyVal.other⟩ ⟨2, PyVal.other⟩ ⟨3, PyVal.int 17⟩ ⟨4, PyVal.int 1048576⟩ 17 1048576
    ⟨[65536], [(1234, 0)], 0, Option.none⟩ ⟨[], [(1234, 0)], 0, Option.none⟩
    ⟨[], [], 0, Option.none⟩ 4096 65536 1234 rfl rfl (by decide) (by decide) rfl (by decide)
    rfl (by decide) rfl

/-- Two increments, the second reading the count the first wrote. -/
theorem refcnt_raised_twice (r : Nat → Int) (i j o : Nat) :
    Function.update (Function.update r i (r i + 1)) j (Function.update r i (r i + 1) j + 1) o
      = r o + (if o = i then 1 else 0) + (if o = j then 1 else 0) := by
  by_cases h1 : o = i <;> by_cases h2 : o = j <;> by_cases h3 : j = i <;>
    simp_all [Function.update]

/-- Two decrements, the second reading the count the first wrote. -/
theorem refcnt_lowered_twice (r : Nat → Int) (i j o : Nat) :
    Function.update (Function.update r i (r i - 1)) j (Function.update r i (r i - 1) j - 1) o
      = r o - (if o = i then 1 else 0) - (if o = j then 1 else 0) := by
  by_cases h1 : o = i <;> by_cases h2 : o = j <;> by_cases h3 : j = i <;>
    simp_all [Function.update]

/-- C9, as stated, fails: for `fett.clone(f, a, SIGCHLD, 1048576)`, flags without
`CLONE_VM`, with every count 1 before the spawn and entry returning an object, the spawn
succeeds and the callback runs to its end in the task's copy of memory; afterwards the
caller's counts of entry and args are 2, not 1, and in the task's memory the count of the
object entry returned is 2, not 1. -/
theorem spawn_then_callback_counts_not_restored :
    (fett_clone scripted (scripted_world ⟨[4096, 65536], [(1234, 0)], 0, some (PyVal.int 0)⟩)
        [⟨1, PyVal.other⟩, ⟨2, PyVal.other⟩, ⟨3, PyVal.int 17⟩, ⟨4, PyVal.int 1048576⟩]).2
      = PyResult.ok (PyVal.int 1234)
    ∧ shares_memory 17 = false
    ∧ (fett_clone_callback scripted
        (fett_clone scripted
          (scripted_world ⟨[4096, 65536], [(1234, 0)], 0, some (PyVal.int 0)⟩)
          [⟨1, PyVal.other⟩, ⟨2, PyVal.other⟩, ⟨3, PyVal.int 17⟩, ⟨4, PyVal.int 1048576⟩]).1
        4096).map
        (fun r =>
          (refcnt_after_task 17
            (fett_clone scripted
              (scripted_world ⟨[4096, 65536], [(1234, 0)], 0, some (PyVal.int 0)⟩)
              [⟨1, PyVal.other⟩, ⟨2, PyVal.other⟩, ⟨3, PyVal.int 17⟩,
               ⟨4, PyVal.int 1048576⟩]).1.refcnt r.1.refcnt 1,
           refcnt_after_task 17
            (fett_clone scripted
              (scripted_world ⟨[4096, 65536], [(1234, 0)], 0, some (PyVal.int 0)⟩)
              [⟨1, PyVal.other⟩, ⟨2, PyVal.other⟩, ⟨3, PyVal.int 17⟩,
               ⟨4, PyVal.int 1048576⟩]).1.refcnt r.1.refcnt 2,
           r.1.refcnt 0))
      = some (2, 2, 2)
    ∧ (scripted_world ⟨[4096, 65536], [(1234, 0)], 0, some (PyVal.int 0)⟩).refcnt 1 = 1
    ∧ (scripted_world ⟨[4096, 65536], [(1234, 0)], 0, some (PyVal.int 0)⟩).refcnt 2 = 1
    ∧ (scripted_world ⟨[4096, 65536], [(1234, 0)], 0, some (PyVal.int 0)⟩).refcnt 0 = 1 := by
  decide

/-- C9 (amended): with reference counts as explicit state, one set of counts per address
space. A successful `fett_clone` raises the count of entry and the count of args by one
each, the two `Py_INCREF` effects coming before the kernel clone call (the last effect of
the call). `fett_clone_callback`, run by the task on the context handed to clone, calls
entry, then lowers the counts of entry and args by one each and changes no other count
itself; so in the task's memory every count the call of entry left as it found it is,
after the callback, what it was before the spawn. The caller's counts are those of the
task when the flags hold `CLONE_VM`; without `CLONE_VM` they stay as the spawn left them,
entry and args raised by one each. -/
theorem spawn_then_callback_refcounts (H : Host σ) (w : World σ)
    (f a fo so : PyObject) (flags : Int) (v : PyVal)
    (hfo : fo.val = PyVal.int flags)
    (hok : (fett_clone H w [f, a, fo, so]).2 = PyResult.ok v) :
    (∃ size base child_stack ret,
        (fett_clone H w [f, a, fo, so]).1.trace = w.trace ++
          [Event.malloc SIZEOF_CLONE_CONTEXT (H.malloc w.host SIZEOF_CLONE_CONTEXT).2,
           Event.malloc size base, Event.incref f.id, Event.incref a.id,
           Event.sys (Syscall.clone child_stack flags
             (H.malloc w.host SIZEOF_CLONE_CONTEXT).2) ret])
      ∧ (∀ o, (fett_clone H w [f, a, fo, so]).1.refcnt o
          = w.refcnt o + (if o = f.id then 1 else 0) + (if o = a.id then 1 else 0))
      ∧ ∃ w2 status,
          fett_clone_callback H (fett_clone H w [f, a, fo, so]).1
              (H.malloc w.host SIZEOF_CLONE_CONTEXT).2 = some (w2, status)
          ∧ w2.trace = (fett_clone H w [f, a, fo, so]).1.trace ++
              [Event.call f a, Event.decref f.id, Event.decref a.id,
               Event.free (H.malloc w.host SIZEOF_CLONE_CONTEXT).2]
          ∧ (∀ o, w2.refcnt o
              = H.call_counts (fett_clone H w [f, a, fo, so]).1.host f a
                  (fett_clone H w [f, a, fo, so]).1.refcnt o
                - (if o = f.id then 1 else 0) - (if o = a.id then 1 else 0))
          ∧ (∀ o, H.call_counts (fett_clone H w [f, a, fo, so]).1.host f a
                  (fett_clone H w [f, a, fo, so]).1.refcnt o
                = (fett_clone H w [f, a, fo, so]).1.refcnt o →
              w2.refcnt o = w.refcnt o)
          ∧ (∀ o, refcnt_after_task flags (fett_clone H w [f, a, fo, so]).1.refcnt w2.refcnt o
              = if shares_memory flags then w2.refcnt o
                else w.refcnt o + (if o = f.id then 1 else 0) + (if o = a.id then 1 else 0))
    := by
  obtain ⟨flags2, size, hfo2, hso, hctx, hstk⟩ := fett_clone_ok_inv H w f a fo so v hok
  have hfl : flags2 = flags := by
    simp only [parse_i, hfo] at hfo2
    split at hfo2
    · exact (Option.some.inj hfo2).symm
    · cases hfo2
  subst hfl
  rw [fett_clone_spawned H w f a fo so flags2 size hfo2 hso hctx hstk]
  refine ⟨⟨_, _, _, _, rfl⟩, ?_, ?_⟩
  · intro o
    exact refcnt_raised_twice w.refcnt f.id a.id o
  · simp only [fett_clone_callback, Function.update_same, PyObject_CallObject, Py_DECREF,
      do_free]
    refine ⟨_, _, rfl, by simp, ?_, ?_, ?_⟩
    · intro o
      exact refcnt_lowered_twice _ f.id a.id o
    · intro o ho
      refine (refcnt_lowered_twice _ f.id a.id o).trans ?_
      rw [ho, refcnt_raised_twice]
      omega
    · intro o
      unfold refcnt_after_task
      cases shares_memory flags2
      · exact refcnt_raised_twice w.refcnt f.id a.id o
      · rfl

theorem spawn_then_callback_refcounts_witness :
    (fett_clone scripted (scripted_world ⟨[4096, 65536], [(1234, 0)], 0, Option.none⟩)
        [⟨1, PyVal.other⟩, ⟨2, PyVal.other⟩, ⟨3, PyVal.int 273⟩, ⟨4, PyVal.int 1048576⟩]).2
      = PyResult.ok (PyVal.int 1234)
    ∧ ∃ w2 status,
        fett_clone_callback scripted
          (fett_clone scripted
            (scripted_world ⟨[4096, 65536], [(1234, 0)], 0, Option.none⟩)
            [⟨1, PyVal.other⟩, ⟨2, PyVal.other⟩, ⟨3, PyVal.int 273⟩, ⟨4, PyVal.int 1048576⟩]).1
          4096 = some (w2, status)
        ∧ ∀ o, refcnt_after_task 273
            (fett_clone scripted
              (scripted_world ⟨[4096, 65536], [(1234, 0)], 0, Option.none⟩)
              [⟨1, PyVal.other⟩, ⟨2, PyVal.other⟩, ⟨3, PyVal.int 273⟩,
               ⟨4, PyVal.int 1048576⟩]).1.refcnt w2.refcnt o
            = (scripted_world ⟨[4096, 65536], [(1234, 0)], 0, Option.none⟩).refcnt o :=
  ⟨by decide,
   (spawn_then_callback_refcounts scripted
      (scripted_world ⟨[4096, 65536], [(1234, 0)], 0, Option.none⟩)
      ⟨1, PyVal.other⟩ ⟨2, PyVal.other⟩ ⟨3, PyVal.int 273⟩ ⟨4, PyVal.int 1048576⟩ 273
      (PyVal.int 1234) rfl (by decide)).2.2.imp
    (fun _ h => h.imp (fun _ h2 =>
      ⟨h2.1, fun o => (h2.2.2.2.2 o).trans (h2.2.2.2.1 o rfl)⟩))⟩

/-! ## `fett_clone_callback` -/

/-- C7, as stated, fails: when entry returns the integer 7, the status
`fett_clone_callback` returns to the kernel is 0, not 7. -/
theorem callback_status_not_entry_status :
    (scripted.call_object ⟨[], [], 0, some (PyVal.int 7)⟩ ⟨1, PyVal.other⟩ ⟨2, PyVal.other⟩).2
      = some (PyVal.int 7)
    ∧ (fett_clone_callback scripted
        { host := ⟨[], [], 0, some (PyVal.int 7)⟩, refcnt := fun _ => 2,
          ctxmem := Function.update (fun _ => Option.none) 4096
            (some ⟨⟨1, PyVal.other⟩, ⟨2, PyVal.other⟩⟩),
          trace := [] } 4096).map Prod.snd = some 0 := by
  decide

/-- C7 (amended): for every entry routine and argument bundle, `fett_clone_callback` invokes
entry exactly once with the argument bundle unmodified, and the status it returns to the
kernel is 0, whatever entry returned. -/
theorem callback_calls_entry_once_returns_zero (H : Host σ) (w : World σ) (ctx : Nat)
    (entry args : PyObject) (hctx : w.ctxmem ctx = some ⟨entry, args⟩) :
    ∃ w2, fett_clone_callback H w ctx = some (w2, 0)
      ∧ pyCalls w2.trace = pyCalls w.trace ++ [(entry, args)] := by
  refine ⟨do_free (Py_DECREF (Py_DECREF (PyObject_CallObject H w entry args).1 entry) args) ctx,
    by simp only [fett_clone_callback, hctx], ?_⟩
  simp [PyObject_CallObject, Py_DECREF, do_free, pyCalls_append, pyCalls]

theorem callback_calls_entry_once_returns_zero_witness :
    ∃ w2, fett_clone_callback scripted
        { host := ⟨[], [], 0, some (PyVal.int 7)⟩, refcnt := fun _ => 2,
          ctxmem := Function.update (fun _ => Option.none) 4096
            (some ⟨⟨1, PyVal.other⟩, ⟨2, PyVal.other⟩⟩),
          trace := [] } 4096 = some (w2, 0)
      ∧ pyCalls w2.trace = pyCalls [] ++ [(⟨1, PyVal.other⟩, ⟨2, PyVal.other⟩)] :=
  callback_calls_entry_once_returns_zero scripted
    { host := ⟨[], [], 0, some (PyVal.int 7)⟩, refcnt := fun _ => 2,
      ctxmem := Function.update (fun _ => Option.none) 4096
        (some ⟨⟨1, PyVal.other⟩, ⟨2, PyVal.other⟩⟩),
      trace := [] } 4096 ⟨1, PyVal.other⟩ ⟨2, PyVal.other⟩ (by decide)

/-! ## `fett_unshare`, `fett_sethostname`, `fett_mount`, `fett_umount` -/

/-- The length the kernel reads is the length `PyArg_ParseTuple` stored, whatever the
uninitialised `len` held before. -/
theorem kernel_int_store_int (len0 n : Nat) (hn : (n : Int) ≤ INT_MAX) :
    kernel_int (store_int len0 (n : Int)) = (n : Int) := by
  unfold INT_MAX at hn
  unfold kernel_int store_int
  rw [Int.emod_eq_of_lt (by omega) (by omega)]
  simp only [Int.toNat_ofNat]
  have hm : (len0 % PTR_MOD / 2 ^ 32 * 2 ^ 32 + n) % 2 ^ 32 = n := by
    omega
  rw [hm, if_pos (by omega)]

/-- C5: called with well-formed arguments, each of `unshare`, `sethostname`, `mount` and
`umount` performs exactly one effect, a single call of its kernel primitive with the
caller's arguments unchanged (for `sethostname` the buffer of the caller's string and its
length, whatever the uninitialised `len` held); it returns `None` if and only if that
call returned 0, and otherwise fails with `OSError` carrying the kernel's error code. -/
theorem wrappers_single_kernel_call (H : Host σ) (w : World σ)
    (fl : PyObject) (flags : Int) (hfl : fl.val = PyVal.int flags)
    (hflags : INT_MIN ≤ flags ∧ flags ≤ INT_MAX)
    (nm : PyObject) (name : List Nat) (len0 : Nat) (hnm : nm.val = PyVal.str name)
    (hlen : (name.length : Int) ≤ INT_MAX)
    (src tgt fs mf dt : PyObject) (source target filesystemtype data : List Nat)
    (mountflags : Nat)
    (hsrc : src.val = PyVal.str source) (htgt : tgt.val = PyVal.str target)
    (hfs : fs.val = PyVal.str filesystemtype) (hmf : mf.val = PyVal.int mountflags)
    (hdt : dt.val = PyVal.str data)
    (hnul : 0 ∉ source ∧ 0 ∉ target ∧ 0 ∉ filesystemtype ∧ 0 ∉ data)
    (hmfr : mountflags < 2 ^ 64)
    (ut : PyObject) (utarget : List Nat) (hut : ut.val = PyVal.str utarget)
    (hunul : 0 ∉ utarget) :
    ((fett_unshare H w [fl]).1.trace
        = w.trace ++ [Event.sys (Syscall.unshare flags) (H.syscall w.host (Syscall.unshare flags)).2]
      ∧ (fett_unshare H w [fl]).1.host = (H.syscall w.host (Syscall.unshare flags)).1
      ∧ ((fett_unshare H w [fl]).2 = PyResult.ok PyVal.none
          ↔ (H.syscall w.host (Syscall.unshare flags)).2 = 0)
      ∧ ((H.syscall w.host (Syscall.unshare flags)).2 ≠ 0 →
          (fett_unshare H w [fl]).2
            = PyResult.error (PyErr.OSError (H.errno (H.syscall w.host (Syscall.unshare flags)).1))))
    ∧
    ((fett_sethostname H w len0 [nm]).1.trace
        = w.trace ++ [Event.sys (Syscall.sethostname (name ++ [0]) name.length) (H.syscall w.host (Syscall.sethostname (name ++ [0]) name.length)).2]
      ∧ (fett_sethostname H w len0 [nm]).1.host = (H.syscall w.host (Syscall.sethostname (name ++ [0]) name.length)).1
      ∧ ((fett_sethostname H w len0 [nm]).2 = PyResult.ok PyVal.none
          ↔ (H.syscall w.host (Syscall.sethostname (name ++ [0]) name.length)).2 = 0)
      ∧ ((H.syscall w.host (Syscall.sethostname (name ++ [0]) name.length)).2 ≠ 0 →
          (fett_sethostname H w len0 [nm]).2
            = PyResult.error (PyErr.OSError (H.errno (H.syscall w.host (Syscall.sethostname (name ++ [0]) name.length)).1))))
    ∧
    ((fett_mount H w [src, tgt, fs, mf, dt]).1.trace
        = w.trace ++ [Event.sys (Syscall.mount source target filesystemtype mountflags data) (H.syscall w.host (Syscall.mount source target filesystemtype mountflags data)).2]
      ∧ (fett_mount H w [src, tgt, fs, mf, dt]).1.host = (H.syscall w.host (Syscall.mount source target filesystemtype mountflags data)).1
      ∧ ((fett_mount H w [src, tgt, fs, mf, dt]).2 = PyResult.ok PyVal.none
          ↔ (H.syscall w.host (Syscall.mount source target filesystemtype mountflags data)).2 = 0)
      ∧ ((H.syscall w.host (Syscall.mount source target filesystemtype mountflags data)).2 ≠ 0 →
          (fett_mount H w [src, tgt, fs, mf, dt]).2
            = PyResult.error (PyErr.OSError (H.errno (H.syscall w.host (Syscall.mount source target filesystemtype mountflags data)).1))))
    ∧
    ((fett_umount H w [ut]).1.trace
        = w.trace ++ [Event.sys (Syscall.umount utarget) (H.syscall w.host (Syscall.umount utarget)).2]
      ∧ (fett_umount H w [ut]).1.host = (H.syscall w.host (Syscall.umount utarget)).1
      ∧ ((fett_umount H w [ut]).2 = PyResult.ok PyVal.none
          ↔ (H.syscall w.host (Syscall.umount utarget)).2 = 0)
      ∧ ((H.syscall w.host (Syscall.umount utarget)).2 ≠ 0 →
          (fett_umount H w [ut]).2
            = PyResult.error (PyErr.OSError (H.errno (H.syscall w.host (Syscall.umount utarget)).1)))) := by
  have hk : to_size_t (mountflags : Int) = mountflags := by
    unfold to_size_t
    rw [Int.emod_eq_of_lt (by omega) (by omega)]
    simp
  have key : ∀ c : Syscall,
      (let k := do_syscall H w c
       let r : World σ × PyResult :=
         if k.2 ≠ 0 then (k.1, PyErr_SetFromErrno H k.1) else (k.1, PyResult.ok PyVal.none)
       r.1.trace = w.trace ++ [Event.sys c (H.syscall w.host c).2]
        ∧ r.1.host = (H.syscall w.host c).1
        ∧ (r.2 = PyResult.ok PyVal.none ↔ (H.syscall w.host c).2 = 0)
        ∧ ((H.syscall w.host c).2 ≠ 0 →
            r.2 = PyResult.error (PyErr.OSError (H.errno (H.syscall w.host c).1)))) := by
    intro c
    simp only [do_syscall, PyErr_SetFromErrno]
    by_cases h0 : (H.syscall w.host c).2 = 0 <;> simp [h0]
  refine ⟨?_, ?_, ?_, ?_⟩
  · simpa only [fett_unshare, parse_i_int fl flags hfl hflags] using key (Syscall.unshare flags)
  · simpa only [fett_sethostname, parse_s_hash, hnm, if_pos hlen,
      kernel_int_store_int len0 name.length hlen] using
      key (Syscall.sethostname (name ++ [0]) name.length)
  · simpa only [fett_mount, parse_s_str src source hsrc hnul.1,
      parse_s_str tgt target htgt hnul.2.1, parse_s_str fs filesystemtype hfs hnul.2.2.1,
      parse_s_str dt data hdt hnul.2.2.2, parse_k, hmf, hk, c_str_terminated source hnul.1,
      c_str_terminated target hnul.2.1, c_str_terminated filesystemtype hnul.2.2.1,
      c_str_terminated data hnul.2.2.2] using
      key (Syscall.mount source target filesystemtype mountflags data)
  · simpa only [fett_umount, parse_s_str ut utarget hut hunul,
      c_str_terminated utarget hunul] using key (Syscall.umount utarget)

theorem wrappers_single_kernel_call_witness :
    (fett_unshare scripted (scripted_world ⟨[], [(0, 0)], 0, Option.none⟩)
        [⟨1, PyVal.int 131072⟩]).1.trace = [] ++ [Event.sys (Syscall.unshare 131072) 0]
    ∧ (fett_sethostname scripted (scripted_world ⟨[], [(0, 0)], 0, Option.none⟩) 4294967296
        [⟨2, PyVal.str [106, 49]⟩]).1.trace
      = [] ++ [Event.sys (Syscall.sethostname [106, 49, 0] 2) 0]
    ∧ (fett_mount scripted (scripted_world ⟨[], [(0, 0)], 0, Option.none⟩)
        [⟨3, PyVal.str [111]⟩, ⟨4, PyVal.str [47, 109]⟩, ⟨5, PyVal.str [111]⟩,
         ⟨6, PyVal.int 4096⟩, ⟨7, PyVal.str []⟩]).1.trace
      = [] ++ [Event.sys (Syscall.mount [111] [47, 109] [111] 4096 []) 0]
    ∧ (fett_umount scripted (scripted_world ⟨[], [(0, 0)], 0, Option.none⟩)
        [⟨8, PyVal.str [47, 109]⟩]).1.trace = [] ++ [Event.sys (Syscall.umount [47, 109]) 0] :=
  have h := wrappers_single_kernel_call scripted
    (scripted_world ⟨[], [(0, 0)], 0, Option.none⟩)
    ⟨1, PyVal.int 131072⟩ 131072 rfl (by decide)
    ⟨2, PyVal.str [106, 49]⟩ [106, 49] 4294967296 rfl (by decide)
    ⟨3, PyVal.str [111]⟩ ⟨4, PyVal.str [47, 109]⟩ ⟨5, PyVal.str [111]⟩ ⟨6, PyVal.int 4096⟩
    ⟨7, PyVal.str []⟩ [111] [47, 109] [111] [] 4096 rfl rfl rfl rfl rfl (by decide) (by decide)
    ⟨8, PyVal.str [47, 109]⟩ [47, 109] rfl (by decide)
  ⟨h.1.1, h.2.1.1, h.2.2.1.1, h.2.2.2.1⟩

/-! ## `fett_sethostname` over the hostname model -/

/-- C8: over the hostname model, for every byte string `name` within the permitted length,
zero bytes included, `fett_sethostname(name)` succeeds and a following read of the hostname
returns exactly `name`; a second call with the same name succeeds too and leaves the kernel
state unchanged. (`len0` and `len1` are what the uninitialised `len` holds at the two
calls.) -/
theorem sethostname_then_read (w : World Uts) (nm : PyObject) (name : List Nat)
    (len0 len1 : Nat) (hnm : nm.val = PyVal.str name) (hlen : name.length ≤ HOST_NAME_MAX) :
    (fett_sethostname uts_host w len0 [nm]).2 = PyResult.ok PyVal.none
      ∧ gethostname (fett_sethostname uts_host w len0 [nm]).1.host = name
      ∧ (fett_sethostname uts_host (fett_sethostname uts_host w len0 [nm]).1 len1 [nm]).2
          = PyResult.ok PyVal.none
      ∧ (fett_sethostname uts_host (fett_sethostname uts_host w len0 [nm]).1 len1 [nm]).1.host
          = (fett_sethostname uts_host w len0 [nm]).1.host := by
  unfold HOST_NAME_MAX at hlen
  have hmax : (name.length : Int) ≤ INT_MAX := by
    unfold INT_MAX
    omega
  have hle : (name.length : Int) ≤ 64 := by omega
  simp [fett_sethostname, parse_s_hash, hnm, do_syscall, uts_host, gethostname, hmax,
    kernel_int_store_int _ name.length hmax, HOST_NAME_MAX, hle]

theorem sethostname_then_read_witness :
    gethostname (fett_sethostname uts_host
        { host := ⟨[111, 108, 100], 0⟩, refcnt := fun _ => 1, ctxmem := fun _ => Option.none,
          trace := [] } 4294967296 [⟨1, PyVal.str [106, 0, 49]⟩]).1.host = [106, 0, 49] :=
  (sethostname_then_read
    { host := ⟨[111, 108, 100], 0⟩, refcnt := fun _ => 1, ctxmem := fun _ => Option.none,
      trace := [] } ⟨1, PyVal.str [106, 0, 49]⟩ [106, 0, 49] 4294967296 0 rfl (by decide)).2.1

/-! ## `initfett` -/

/-- C6, as stated, fails: the module exports no flag for the user namespace. Its constants
do not include the name `CLONE_NEWUSER`, and with the values of Linux on x86-64 no exported
constant has the value of `CLONE_NEWUSER` either. -/
theorem user_namespace_flag_not_exported :
    NamespaceKind.flag NamespaceKind.user = "CLONE_NEWUSER"
    ∧ "CLONE_NEWUSER" ∉ (initfett linux_headers).consts.map Prod.fst
    ∧ linux_headers "CLONE_NEWUSER" ∉ (initfett linux_headers).consts.map Prod.snd := by
  decide

/-- C6 (amended): the constants the module exports contain a namespace flag for each of the
five namespace kinds mount, network, PID, IPC and UTS, and none for the user namespace; and
the exported constants are exactly the 36 names of lines 160-198, each with the value the
host's headers give the macro of the same name. -/
theorem exported_constants (hdr : String → Int) :
    (∀ k : NamespaceKind,
        NamespaceKind.flag k ∈ (initfett hdr).consts.map Prod.fst ↔ k ≠ NamespaceKind.user)
      ∧ (initfett hdr).consts = exported_names.map (fun n => (n, hdr n)) := by
  have hc : (initfett hdr).consts = exported_names.map (fun n => (n, hdr n)) := by
    simp [initfett, exported_names, PyModule_AddIntConstant, Py_InitModule]
  refine ⟨?_, hc⟩
  have hn : (initfett hdr).consts.map Prod.fst = exported_names := by
    rw [hc, List.map_map]
    exact List.map_id _
  rw [hn]
  intro k
  cases k <;> decide

end Fett
